import Mathlib

/-!
Shallow embedding of src/chromosight/utils/plotting.py.

The module under verification renders diagnostic plots of Hi-C contact
matrices via matplotlib.pyplot (a shared global plotting state), and
writes PDF files.  We embed each top-level function as a pure Lean
function that returns:
  - the trace of plotting-library calls it performs (a list of `Effect`),
  - the values of its mutable inputs at return time (to settle the
    frame-effect claim), and
  - auxiliary data (save paths, resolved regions, kept patterns).
The global matplotlib state is modelled by `PltState` (the number of open
figures); a trace is replayed against it with `runEffects`.

Matrices are modelled as `List (List Int)` (a dense 2D numeric grid; the
actual numeric values are irrelevant to every claim, only shapes and
identity matter).  Filesystem paths are lists of components; the pathlib
operator `/` is list append.
-/

/-- A field of a pattern record: either the string sentinel "NA"
("not available") or a numeric value.  In the Python source a record is a
4-tuple `(frame, pos1, pos2, score)` and fields are compared against the
string literal "NA". -/
inductive PField where
  | NA : PField
  | val : Int → PField
deriving DecidableEq, Repr

/-- A pattern record as consumed by `pattern_plot`: the unpacking
`_, pos1, pos2, _ = border` in the source fixes exactly four fields
`(frame, pos1, pos2, score)`. -/
structure PRec where
  frame : Int
  pos1 : PField
  pos2 : PField
  score : PField
deriving DecidableEq, Repr

/-- One plotting-library call, as recorded in a trace.
`plotD` is `plt.plot(pos1, pos2, "D", ...)` (border marker), `scatterM` is
`plt.scatter(pos1, pos2, ...)` (loop marker), `scatterXY` is the vector
scatter of `plot_whole_matrix`, `draw` stands for the curve plots and the
axis-setting calls of `distance_plot` (plot, xlabel, ylabel, xlim, ylim,
loglog), which create or reuse the current figure but are otherwise
irrelevant to the claims. -/
inductive Effect where
  | imshow : Effect
  | title : String → Effect
  | colorbar : Effect
  | plotD : PField → PField → Effect
  | scatterM : PField → PField → Effect
  | scatterXY : List Nat → List Nat → Effect
  | draw : Effect
  | savefig : List String → Effect
  | closeAll : Effect
  | show : Effect
deriving DecidableEq, Repr

/-- The shared global matplotlib state: the number of open figures. -/
structure PltState where
  openFigs : Nat
deriving DecidableEq, Repr

/-- Drawing into the current figure creates one if none is open
(pyplot gca semantics). -/
def ensureFig (s : PltState) : PltState :=
  ⟨max s.openFigs 1⟩

/-- Semantics of one plotting call on the global state:
`plt.close("all")` closes every figure; `savefig` and `show` leave the
set of open figures unchanged; every drawing call targets the current
figure, creating one if needed. -/
def applyEffect (s : PltState) : Effect → PltState
  | .savefig _ => s
  | .closeAll => ⟨0⟩
  | .show => s
  | _ => ensureFig s

/-- Replay a trace of plotting calls against the global state. -/
def runEffects (s : PltState) (l : List Effect) : PltState :=
  l.foldl applyEffect s

/-- The paths passed to `plt.savefig` in a trace, in order. -/
def savefigPaths (l : List Effect) : List (List String) :=
  l.filterMap fun e =>
    match e with
    | .savefig p => some p
    | _ => none

/-- A matrix: dense 2D grid of numbers. -/
def Mat : Type := List (List Int)

instance : DecidableEq Mat := by
  unfold Mat
  infer_instance

/-- Source loop body for the "borders" branch of `pattern_plot`:
records whose first field differs from `name` are skipped (continue);
then `plt.plot(pos1, pos2, "D", ...)` runs only when `border[1] != "NA"`.
Note the source never examines `border[2]`. -/
def borderMarkers (name : Int) (recs : List PRec) : List Effect :=
  recs.filterMap fun b =>
    if b.frame ≠ name then none
    else if b.pos1 ≠ PField.NA then some (Effect.plotD b.pos1 b.pos2)
    else none

/-- Source loop body for the "loops" branch of `pattern_plot`:
same structure as the borders branch, with `plt.scatter`. -/
def loopMarkers (name : Int) (recs : List PRec) : List Effect :=
  recs.filterMap fun l =>
    if l.frame ≠ name then none
    else if l.pos1 ≠ PField.NA then some (Effect.scatterM l.pos1 l.pos2)
    else none

/-- Iteration over `patterns.items()` in `pattern_plot`: only the keys
"borders" and "loops" produce markers, every other key falls through both
branches.  The patterns dict is modelled as an association list in
iteration order. -/
def patternMarkers (name : Int) : List (String × List PRec) → List Effect
  | [] => []
  | (k, recs) :: rest =>
    (if k = "borders" then borderMarkers name recs
     else if k = "loops" then loopMarkers name recs
     else []) ++ patternMarkers name rest

/-- Result of a `pattern_plot` call: its trace, the path handed to
savefig, and the values of the two inputs at return time. -/
structure PatRes where
  effects : List Effect
  savePath : List String
  contactAfter : Mat
  patternsAfter : List (String × List PRec)

/-- Embedding of `pattern_plot(contact_map, patterns, output=None, name=None)`.
`name` defaults to 0 and `output` to the empty (current-directory) path.
Trace order follows the source: imshow of the contact matrix, title,
colorbar, the marker loops, then
`plt.savefig(output / (str(name + 1) + ".2.pdf"))` and `plt.close("all")`.
The contact matrix is only read (via todense, a fresh dense copy), and
the patterns dict is only iterated, so both inputs are returned as given. -/
def pattern_plot (contact_map : Mat) (patterns : List (String × List PRec))
    (output : Option (List String)) (name? : Option Int) : PatRes :=
  let name := name?.getD 0
  let out := output.getD []
  let emplacement := out ++ [toString (name + 1) ++ ".2.pdf"]
  { effects := [Effect.imshow, Effect.title (toString name), Effect.colorbar]
      ++ patternMarkers name patterns
      ++ [Effect.savefig emplacement, Effect.closeAll],
    savePath := emplacement,
    contactAfter := contact_map,
    patternsAfter := patterns }

/-- Result of a `pileup_plot` call. -/
structure PileupRes where
  effects : List Effect
  savePath : List String
  pileupAfter : Mat

/-- Embedding of `pileup_plot(pileup_pattern, name="pileup patterns", output=None)`:
imshow of the pileup, title ("pileup " + name), colorbar, savefig at
`output / (name + ".pdf")`, close all.  The pileup matrix is only read. -/
def pileup_plot (pileup_pattern : Mat) (name : String)
    (output : Option (List String)) : PileupRes :=
  let out := output.getD []
  let emplacement := out ++ [name ++ ".pdf"]
  { effects := [Effect.imshow, Effect.title ("pileup " ++ name), Effect.colorbar,
      Effect.savefig emplacement, Effect.closeAll],
    savePath := emplacement,
    pileupAfter := pileup_pattern }

/-- A Python runtime error relevant to this module: an unresolved name
(NameError) carries the name that failed to resolve. -/
inductive PyError where
  | nameError : String → PyError
deriving DecidableEq, Repr

/-- A 1D numeric array, as produced by the distance-law helper.
`none` stands for NaN so that the masked assignment
`y[np.isnan(y)] = 0.0` of the source can be modelled. -/
def DArr : Type := List (Option Int)

/-- The masked in-place assignment `y[np.isnan(y)] = 0.0`: every NaN
entry becomes 0, every other entry is unchanged. -/
def nanToZero (y : DArr) : DArr :=
  y.map fun v =>
    match v with
    | none => some 0
    | some x => some x

/-- The name-resolution environment of `distance_plot`.  The module
imports only pathlib, functools, numpy and matplotlib.pyplot, yet the
loop body uses `utils.distance_law` and `savgol_filter`; neither name is
defined or imported in the unit, so resolving them succeeds only when the
embedding environment injects them.  `hasUtils` and `hasSavgol` record
whether each name resolves; the function fields give the injected
behaviour when it does. -/
structure Env where
  hasUtils : Bool
  hasSavgol : Bool
  distance_law : Mat → DArr
  savgol_filter : DArr → DArr

/-- The environment of the module as written: neither `utils` nor
`savgol_filter` resolves (the function fields are irrelevant dummies). -/
def envAsWritten : Env :=
  { hasUtils := false, hasSavgol := false,
    distance_law := fun _ => [], savgol_filter := fun y => y }

/-- Result of one iteration of the `distance_plot` loop over
`zip(matrix_list, labels)`. -/
structure DBodyRes where
  effects : List Effect
  err : Option PyError
  matrixAfter : Mat
  distAfter : DArr

/-- One iteration of the `distance_plot` loop, in source order:
`dist = utils.distance_law(matrix)` (NameError "utils" if not injected);
`x = np.arange(0, len(dist))`; `y = dist` (an alias, not a copy);
`y[np.isnan(y)] = 0.0` (mutates the dist array in place);
`y_savgol = savgol_filter(y, ...)` (NameError "savgol_filter" if not
injected); three `plt.plot` calls; xlabel, ylabel, xlim, ylim, loglog
(eight `draw` effects in total); title;
`plt.savefig(pathlib.Path(name) / ".pdf3")`; `plt.close("all")`.
The matrix itself is never written: the in-place assignment targets the
fresh array returned by the distance-law helper. -/
def distanceBody (env : Env) (matrix : Mat) (name : String) : DBodyRes :=
  if env.hasUtils = false then
    { effects := [], err := some (PyError.nameError "utils"),
      matrixAfter := matrix, distAfter := [] }
  else
    let dist := env.distance_law matrix
    let y := nanToZero dist
    if env.hasSavgol = false then
      { effects := [], err := some (PyError.nameError "savgol_filter"),
        matrixAfter := matrix, distAfter := y }
    else
      let _ysav := env.savgol_filter y
      { effects := [Effect.draw, Effect.draw, Effect.draw, Effect.draw,
          Effect.draw, Effect.draw, Effect.draw, Effect.draw,
          Effect.title name, Effect.savefig [name, ".pdf3"], Effect.closeAll],
        err := none, matrixAfter := matrix, distAfter := y }

/-- The `for matrix, name in zip(matrix_list, labels)` loop of
`distance_plot`: effects accumulate across iterations; the first
iteration that raises stops the loop and the error propagates. -/
def distanceLoop (env : Env) : List (Mat × String) → List Effect × Option PyError
  | [] => ([], none)
  | (m, name) :: rest =>
    let b := distanceBody env m name
    match b.err with
    | some e => (b.effects, some e)
    | none =>
      let r := distanceLoop env rest
      (b.effects ++ r.1, r.2)

/-- Embedding of `distance_plot(matrices, labels=None)`.  The caller
passes the matrix list directly (the `isinstance(matrices, np.ndarray)`
branch merely wraps a single array into a one-element list).  When
`labels` is None the source sets `labels = range(len(matrix_list))`;
those integer labels are rendered as strings here (note that in Python
`pathlib.Path(name)` on an int label would raise TypeError at savefig,
but every claim about this function either fails before savefig or
supplies string labels, so that branch is never exercised).  The
single-string case `labels = [labels]` is the one-element list. -/
def distance_plot (env : Env) (matrices : List Mat)
    (labels : Option (List String)) : List Effect × Option PyError :=
  let matrix_list := matrices
  let labs := match labels with
    | none => (List.range matrix_list.length).map toString
    | some ls => ls
  distanceLoop env (matrix_list.zip labs)

/-- The message printed by the `_check_datashader` decorator when the
datashader import fails, with the decorated function name interpolated
for the format slot. -/
def importMsg (funName : String) : String :=
  "The datashader package is required to use " ++ funName
    ++ ", please install it first"

/-- An import failure: the ImportError object raised by
`import datashader`, identified by its message payload. -/
structure ImportErr where
  msg : String
deriving DecidableEq, Repr

/-- Embedding of the `_check_datashader(fun)` decorator.  The wrapped
function first attempts `import datashader` (its outcome is the
`importResult` argument); on success the body runs and its value is
returned with nothing printed; on ImportError the message naming the
decorated function is printed and the very same error object is
re-raised (the bare `raise`).  The returned pair is
(lines printed, outcome). -/
def check_datashader {A : Type} (importResult : Except ImportErr Unit)
    (funName : String) (body : Unit → A) : List String × Except ImportErr A :=
  match importResult with
  | Except.ok _ => ([], Except.ok (body ()))
  | Except.error e => ([importMsg funName], Except.error e)

/-- One row of the patterns DataFrame passed to `plot_whole_matrix`:
columns bin1, bin2 (bin indices, non-negative) and a score. -/
structure PRow where
  bin1 : Nat
  bin2 : Nat
  score : Int
deriving DecidableEq, Repr

/-- Number of rows of a matrix (`mat.shape[0]`). -/
def matRows (m : Mat) : Nat := m.length

/-- Number of columns of a matrix (`mat.shape[1]`, taken from the first
row of the dense grid). -/
def matCols (m : Mat) : Nat := (m.headD []).length

/-- The region-resolution branch of `plot_whole_matrix`, in source
order: region given and region2 absent takes the row range for the
columns as well (a diagonal view); both given takes each; region absent
takes the full matrix (region2 is then ignored).  Returns
((s1, e1), (s2, e2)). -/
def resolveRegions (nrows ncols : Nat) :
    Option (Nat × Nat) → Option (Nat × Nat) → (Nat × Nat) × (Nat × Nat)
  | some r, none => (r, r)
  | some r, some r2 => (r, r2)
  | none, _ => ((0, nrows), (0, ncols))

/-- The DataFrame filter
`pat.loc[(pat.bin1 > s1) & (pat.bin1 < e1) & (pat.bin2 > s2) & (pat.bin2 < e2), :]`:
all four comparisons are strict. -/
def keepRow (s1 e1 s2 e2 : Nat) (p : PRow) : Bool :=
  decide (s1 < p.bin1) && decide (p.bin1 < e1)
    && decide (s2 < p.bin2) && decide (p.bin2 < e2)

/-- The matrix slice `mat.tocsr()[s1:e1, s2:e2]`: rows with indices in
[s1, e1) that exist, and within each such row the columns with indices
in [s2, e2). -/
def subMatrix (m : Mat) (s1 e1 s2 e2 : Nat) : Mat :=
  ((m.drop s1).take (e1 - s1)).map fun row => (row.drop s2).take (e2 - s2)

/-- Result of the body of `plot_whole_matrix`: the resolved row and
column ranges, the filtered copy of the patterns DataFrame, the matrix
slice, the trace, and the patterns argument at return time. -/
structure WMRes where
  rows : Nat × Nat
  cols : Nat × Nat
  kept : List PRow
  subMat : Mat
  effects : List Effect
  patternsAfter : List PRow

/-- Embedding of the body of
`plot_whole_matrix(mat, patterns, out=None, region=None, region2=None)`:
resolve the two ranges; `pat = patterns.copy()` then
`pat = pat.loc[strict-bounds filter]` (a rebinding of the local name:
the filtered frame is a new object, the argument is untouched);
`sub_mat = mat.tocsr()[s1:e1, s2:e2]`; `plt.imshow(...)`;
`plt.scatter(pat.bin1 - s1, pat.bin2 - s2, ...)`; then `plt.show()` when
`out` is None, else `plt.savefig(out)`.  No `plt.close` call appears in
this function. -/
def plot_whole_matrix_body (mat : Mat) (patterns : List PRow)
    (out : Option (List String))
    (region region2 : Option (Nat × Nat)) : WMRes :=
  let rr := resolveRegions (matRows mat) (matCols mat) region region2
  let s1 := rr.1.1
  let e1 := rr.1.2
  let s2 := rr.2.1
  let e2 := rr.2.2
  let pat := patterns.map id
  let pat := pat.filter (keepRow s1 e1 s2 e2)
  let sub_mat := subMatrix mat s1 e1 s2 e2
  { rows := rr.1,
    cols := rr.2,
    kept := pat,
    subMat := sub_mat,
    effects := [Effect.imshow,
        Effect.scatterXY (pat.map fun p => p.bin1 - s1)
          (pat.map fun p => p.bin2 - s2)]
      ++ (match out with
          | none => [Effect.show]
          | some p => [Effect.savefig p]),
    patternsAfter := patterns }

/-- Embedding of the decorated `plot_whole_matrix`: the
`_check_datashader` wrapper runs first with the literal function name,
then the body. -/
def plot_whole_matrix (importResult : Except ImportErr Unit) (mat : Mat)
    (patterns : List PRow) (out : Option (List String))
    (region region2 : Option (Nat × Nat)) :
    List String × Except ImportErr WMRes :=
  check_datashader importResult "plot_whole_matrix"
    (fun _ => plot_whole_matrix_body mat patterns out region region2)

/-- An environment where both missing names are injected: the
distance-law helper returns the empty profile and the smoothing filter
is the identity (the claims depend only on name resolution, not on the
numeric content of the curves). -/
def envInjected : Env :=
  { hasUtils := true, hasSavgol := true,
    distance_law := fun _ => [], savgol_filter := fun y => y }

theorem savefigPaths_append (l1 l2 : List Effect) :
    savefigPaths (l1 ++ l2) = savefigPaths l1 ++ savefigPaths l2 := by
  simp [savefigPaths, List.filterMap_append]

theorem savefigPaths_borderMarkers (n : Int) (recs : List PRec) :
    savefigPaths (borderMarkers n recs) = [] := by
  rw [savefigPaths, borderMarkers, List.filterMap_filterMap]
  apply List.filterMap_eq_nil_iff.mpr
  intro b _
  by_cases h1 : b.frame ≠ n
  · simp [h1]
  · by_cases h2 : b.pos1 ≠ PField.NA <;> simp [h1, h2]

theorem savefigPaths_loopMarkers (n : Int) (recs : List PRec) :
    savefigPaths (loopMarkers n recs) = [] := by
  rw [savefigPaths, loopMarkers, List.filterMap_filterMap]
  apply List.filterMap_eq_nil_iff.mpr
  intro b _
  by_cases h1 : b.frame ≠ n
  · simp [h1]
  · by_cases h2 : b.pos1 ≠ PField.NA <;> simp [h1, h2]

theorem savefigPaths_patternMarkers (n : Int) (ps : List (String × List PRec)) :
    savefigPaths (patternMarkers n ps) = [] := by
  induction ps with
  | nil => rfl
  | cons kv rest ih =>
    obtain ⟨k, recs⟩ := kv
    rw [patternMarkers, savefigPaths_append, ih, List.append_nil]
    by_cases hb : k = "borders"
    · rw [if_pos hb]
      exact savefigPaths_borderMarkers n recs
    · rw [if_neg hb]
      by_cases hl : k = "loops"
      · rw [if_pos hl]
        exact savefigPaths_loopMarkers n recs
      · rw [if_neg hl]
        rfl

theorem savefigPaths_pattern_plot (contact : Mat)
    (patterns : List (String × List PRec)) (output : Option (List String))
    (name? : Option Int) :
    savefigPaths (pattern_plot contact patterns output name?).effects
      = [(pattern_plot contact patterns output name?).savePath] := by
  show savefigPaths
      (([Effect.imshow, Effect.title (toString (name?.getD 0)), Effect.colorbar]
          ++ patternMarkers (name?.getD 0) patterns)
        ++ [Effect.savefig ((output.getD [])
              ++ [toString (name?.getD 0 + 1) ++ ".2.pdf"]), Effect.closeAll]) = _
  rw [savefigPaths_append, savefigPaths_append, savefigPaths_patternMarkers]
  rfl

/-- C3: when `region` is a pair (s, e) and `region2` is None,
`plot_whole_matrix` uses the row range for the columns as well: the call
succeeds with the body result, whose column range equals its row range
and equals (s, e), and both the pattern filter and the matrix slice use
(s, e) on the column axis. -/
theorem C3_region2_defaults_to_region (mat : Mat) (pats : List PRow)
    (out : Option (List String)) (s e : Nat) :
    (plot_whole_matrix (Except.ok ()) mat pats out (some (s, e)) none).2
        = Except.ok (plot_whole_matrix_body mat pats out (some (s, e)) none)
      ∧ (plot_whole_matrix_body mat pats out (some (s, e)) none).cols = (s, e)
      ∧ (plot_whole_matrix_body mat pats out (some (s, e)) none).cols
          = (plot_whole_matrix_body mat pats out (some (s, e)) none).rows
      ∧ (plot_whole_matrix_body mat pats out (some (s, e)) none).kept
          = pats.filter (keepRow s e s e)
      ∧ (plot_whole_matrix_body mat pats out (some (s, e)) none).subMat
          = subMatrix mat s e s e := by
  refine ⟨rfl, rfl, rfl, ?_, rfl⟩
  simp [plot_whole_matrix_body, resolveRegions, List.map_id]

/-- C4: when the datashader import fails, the `_check_datashader`
wrapper prints one human-readable line that names the decorated function
and re-raises the very same ImportError object; in particular the
decorated `plot_whole_matrix` prints the message with its own name
interpolated, and that message contains the name as a substring. -/
theorem C4_datashader_guard {A : Type} (e : ImportErr) (funName : String)
    (body : Unit → A) (mat : Mat) (pats : List PRow)
    (out : Option (List String)) (region region2 : Option (Nat × Nat)) :
    check_datashader (Except.error e) funName body
        = ([importMsg funName], Except.error e)
      ∧ plot_whole_matrix (Except.error e) mat pats out region region2
          = ([importMsg "plot_whole_matrix"], Except.error e)
      ∧ (∃ pre post, importMsg "plot_whole_matrix"
          = pre ++ "plot_whole_matrix" ++ post) := by
  exact ⟨rfl, rfl,
    ⟨"The datashader package is required to use ", ", please install it first", rfl⟩⟩

/-- C7: `pattern_plot` saves exactly one file, at the output directory
joined with str(name + 1) + ".2.pdf"; with `name` omitted (None, hence
0) the filename is "1.2.pdf". -/
theorem C7_pattern_plot_save_path (contact : Mat)
    (patterns : List (String × List PRec)) (output : Option (List String))
    (name : Int) :
    savefigPaths (pattern_plot contact patterns output (some name)).effects
        = [output.getD [] ++ [toString (name + 1) ++ ".2.pdf"]]
      ∧ (pattern_plot contact patterns output (some name)).savePath
          = output.getD [] ++ [toString (name + 1) ++ ".2.pdf"]
      ∧ savefigPaths (pattern_plot contact patterns output none).effects
          = [output.getD [] ++ ["1.2.pdf"]]
      ∧ (pattern_plot contact patterns output none).savePath
          = output.getD [] ++ ["1.2.pdf"] := by
  refine ⟨?_, rfl, ?_, rfl⟩
  · rw [savefigPaths_pattern_plot]
    rfl
  · rw [savefigPaths_pattern_plot]
    rfl

/-- C8: none of the four rendering functions mutates its inputs: the
contact matrix and patterns dict of `pattern_plot`, the pileup matrix of
`pileup_plot`, the matrix handled by one `distance_plot` iteration (the
in-place masked assignment targets the fresh array returned by the
distance-law helper, never the matrix), and the patterns DataFrame of
`plot_whole_matrix` (which filters a copy: the filtered frame is
returned in `kept` while the argument is returned untouched) all hold
their original contents at return time. -/
theorem C8_no_input_mutation (contact : Mat)
    (patterns : List (String × List PRec)) (output : Option (List String))
    (name? : Option Int) (pileup : Mat) (pname : String)
    (poutput : Option (List String)) (env : Env) (m : Mat) (label : String)
    (wmat : Mat) (wpats : List PRow) (wout : Option (List String))
    (region region2 : Option (Nat × Nat)) :
    (pattern_plot contact patterns output name?).contactAfter = contact
  ∧ (pattern_plot contact patterns output name?).patternsAfter = patterns
  ∧ (pileup_plot pileup pname poutput).pileupAfter = pileup
  ∧ (distanceBody env m label).matrixAfter = m
  ∧ (plot_whole_matrix_body wmat wpats wout region region2).patternsAfter
      = wpats := by
  refine ⟨rfl, rfl, rfl, ?_, rfl⟩
  by_cases h1 : env.hasUtils = false
  · simp [distanceBody, h1]
  · by_cases h2 : env.hasSavgol = false <;> simp [distanceBody, h1, h2]

/-- C1 counterexample: `plot_whole_matrix` (with datashader available
and an output path, so the call returns normally) contains no
close-all call in its trace, and replaying the call from a state with no
open figures leaves one figure open. -/
theorem C1_counterexample :
    (plot_whole_matrix (Except.ok ()) [[1]] [] (some ["out.pdf"]) none none).2
        = Except.ok (plot_whole_matrix_body [[1]] [] (some ["out.pdf"]) none none)
      ∧ (runEffects ⟨0⟩
          (plot_whole_matrix_body [[1]] [] (some ["out.pdf"]) none none).effects).openFigs
          = 1
      ∧ Effect.closeAll
          ∉ (plot_whole_matrix_body [[1]] [] (some ["out.pdf"]) none none).effects := by
  refine ⟨rfl, ?_, ?_⟩ <;> decide

theorem runEffects_distanceLoop (env : Env) (hu : env.hasUtils = true)
    (hs : env.hasSavgol = true) :
    ∀ (pairs : List (Mat × String)) (s : PltState), pairs ≠ [] →
      runEffects s (distanceLoop env pairs).1 = ⟨0⟩ := by
  intro pairs
  induction pairs with
  | nil => intro s h; exact absurd rfl h
  | cons p rest ih =>
    intro s _
    obtain ⟨m, name⟩ := p
    have hbody : (distanceBody env m name).err = none := by
      simp [distanceBody, hu, hs]
    have heff : (distanceBody env m name).effects
        = [Effect.draw, Effect.draw, Effect.draw, Effect.draw,
            Effect.draw, Effect.draw, Effect.draw, Effect.draw,
            Effect.title name, Effect.savefig [name, ".pdf3"], Effect.closeAll] := by
      simp [distanceBody, hu, hs]
    rw [distanceLoop, hbody]
    rcases rest with _ | ⟨q, rest2⟩
    · show runEffects s ((distanceBody env m name).effects ++ (distanceLoop env []).1) = ⟨0⟩
      rw [heff]
      rfl
    · show runEffects s
          ((distanceBody env m name).effects ++ (distanceLoop env (q :: rest2)).1) = ⟨0⟩
      rw [runEffects, List.foldl_append]
      exact ih _ (by simp)

/-- C1 amended: `pattern_plot` and `pileup_plot` end with
`plt.close("all")`, so replaying either call from any global state
leaves zero open figures; `distance_plot` closes all figures at the end
of each loop iteration, so any normally-returning call that performed at
least one plotting call also leaves zero open figures; but
`plot_whole_matrix` performs no close at all, so its trace never resets
the global state. -/
theorem C1_amended_figure_reset (s : PltState) (contact : Mat)
    (patterns : List (String × List PRec)) (output : Option (List String))
    (name? : Option Int) (pileup : Mat) (pname : String)
    (poutput : Option (List String)) (env : Env) (matrices : List Mat)
    (labels : Option (List String)) (wmat : Mat) (wpats : List PRow)
    (wout : Option (List String)) (region region2 : Option (Nat × Nat)) :
    runEffects s (pattern_plot contact patterns output name?).effects = ⟨0⟩
  ∧ runEffects s (pileup_plot pileup pname poutput).effects = ⟨0⟩
  ∧ (env.hasUtils = true → env.hasSavgol = true →
       (distance_plot env matrices labels).1 ≠ [] →
       runEffects s (distance_plot env matrices labels).1 = ⟨0⟩)
  ∧ Effect.closeAll ∉ (plot_whole_matrix_body wmat wpats wout region region2).effects := by
  refine ⟨?_, rfl, ?_, ?_⟩
  · show runEffects s
        (([Effect.imshow, Effect.title (toString (name?.getD 0)), Effect.colorbar]
            ++ patternMarkers (name?.getD 0) patterns)
          ++ [Effect.savefig ((output.getD [])
                ++ [toString (name?.getD 0 + 1) ++ ".2.pdf"]), Effect.closeAll]) = ⟨0⟩
    rw [runEffects, List.foldl_append]
    rfl
  · intro hu hs hne
    apply runEffects_distanceLoop env hu hs
    intro hnil
    apply hne
    show (distanceLoop env _).1 = []
    rw [hnil]
    rfl
  · rcases wout with _ | p <;>
      cases region <;> cases region2 <;>
        simp [plot_whole_matrix_body, resolveRegions]

/-- Witness for the amended C1 at concrete inputs: a pattern_plot call
started from five open figures ends with none, and a distance_plot call
with the missing names injected and one matrix ends with none. -/
theorem C1_amended_figure_reset_witness :
    runEffects ⟨5⟩ (pattern_plot [[1]] [] none none).effects = ⟨0⟩
  ∧ runEffects ⟨5⟩ (distance_plot envInjected [[[1]]] (some ["a"])).1 = ⟨0⟩ := by
  have h := C1_amended_figure_reset ⟨5⟩ [[1]] [] none none [[1]] "p" none
    envInjected [[[1]]] (some ["a"]) [[1]] [] none none none
  exact ⟨h.1, h.2.2.1 rfl rfl (by decide)⟩

/-- C5: the `distance_plot` loop body resolves the names `utils` and
`savgol_filter`, neither of which is defined or imported in the module;
in an environment that does not inject `utils`, any call whose matrix
list is non-empty (with the default labels, or with any non-empty label
list) raises NameError "utils"; with `utils` injected but not
`savgol_filter`, it raises NameError "savgol_filter". -/
theorem C5_distance_plot_unresolved_names (env : Env) (matrices : List Mat)
    (l : String) (ls : List String) :
    (env.hasUtils = false → matrices ≠ [] →
       (distance_plot env matrices none).2 = some (PyError.nameError "utils")
       ∧ (distance_plot env matrices (some (l :: ls))).2
           = some (PyError.nameError "utils"))
  ∧ (env.hasUtils = true → env.hasSavgol = false → matrices ≠ [] →
       (distance_plot env matrices none).2
         = some (PyError.nameError "savgol_filter")) := by
  constructor
  · intro hu hne
    obtain ⟨m, ms, rfl⟩ : ∃ m ms, matrices = m :: ms := by
      rcases matrices with _ | ⟨m, ms⟩
      · exact absurd rfl hne
      · exact ⟨m, ms, rfl⟩
    constructor <;>
      simp [distance_plot, List.range_succ_eq_map, distanceLoop, distanceBody, hu]
  · intro hu hs hne
    obtain ⟨m, ms, rfl⟩ : ∃ m ms, matrices = m :: ms := by
      rcases matrices with _ | ⟨m, ms⟩
      · exact absurd rfl hne
      · exact ⟨m, ms, rfl⟩
    simp [distance_plot, List.range_succ_eq_map, distanceLoop, distanceBody, hu, hs]

/-- Witness for C5 at concrete inputs: in the module as written neither
name resolves, and a one-matrix call raises NameError "utils"; with only
`utils` injected the same call raises NameError "savgol_filter". -/
theorem C5_distance_plot_unresolved_names_witness :
    (distance_plot envAsWritten [[[1]]] none).2 = some (PyError.nameError "utils")
  ∧ (distance_plot
        { hasUtils := true, hasSavgol := false,
          distance_law := fun _ => [], savgol_filter := fun y => y }
        [[[1]]] none).2 = some (PyError.nameError "savgol_filter") := by
  refine ⟨(C5_distance_plot_unresolved_names envAsWritten [[[1]]] "a" []).1 rfl (by decide) |>.1, ?_⟩
  exact (C5_distance_plot_unresolved_names
    { hasUtils := true, hasSavgol := false,
      distance_law := fun _ => [], savgol_filter := fun y => y }
    [[[1]]] "a" []).2 rfl rfl (by decide)

theorem distanceLoop_injected (env : Env) (hu : env.hasUtils = true)
    (hs : env.hasSavgol = true) :
    ∀ (ms : List Mat) (ls : List String), ls.length = ms.length →
      (distanceLoop env (ms.zip ls)).2 = none
      ∧ savefigPaths (distanceLoop env (ms.zip ls)).1
          = ls.map (fun l => [l, ".pdf3"]) := by
  intro ms
  induction ms with
  | nil =>
    intro ls hlen
    rcases ls with _ | ⟨l, ls2⟩
    · exact ⟨rfl, rfl⟩
    · simp at hlen
  | cons m rest ih =>
    intro ls hlen
    rcases ls with _ | ⟨l, ls2⟩
    · simp at hlen
    · have hlen2 : ls2.length = rest.length := by simpa using hlen
      obtain ⟨ih1, ih2⟩ := ih ls2 hlen2
      have hberr : (distanceBody env m l).err = none := by
        simp [distanceBody, hu, hs]
      have hbeff : savefigPaths (distanceBody env m l).effects = [[l, ".pdf3"]] := by
        simp [distanceBody, hu, hs, savefigPaths]
      show (distanceLoop env ((m, l) :: rest.zip ls2)).2 = none
        ∧ savefigPaths (distanceLoop env ((m, l) :: rest.zip ls2)).1
            = [l, ".pdf3"] :: ls2.map (fun x => [x, ".pdf3"])
      rw [distanceLoop, hberr]
      exact ⟨ih1, by rw [savefigPaths_append, hbeff, ih2]; rfl⟩

/-- C6 counterexample: in the module as written (no injected helper
names) a call with one matrix and one label raises NameError "utils"
and saves nothing, instead of writing one PDF for its matrix. -/
theorem C6_counterexample :
    savefigPaths (distance_plot envAsWritten [[[1]]] (some ["lab"])).1 = []
      ∧ (distance_plot envAsWritten [[[1]]] (some ["lab"])).2
          = some (PyError.nameError "utils") := by
  exact ⟨rfl, rfl⟩

/-- C6 amended: provided the undeclared helper names (the distance-law
utility and the smoothing filter) are injected by the environment, a
`distance_plot` call with n matrices and n labels returns normally and
performs exactly one savefig per matrix, at the deterministic path
derived from that matrix's label (the label joined with ".pdf3",
rendered in PDF format). -/
theorem C6_amended_one_save_per_matrix (env : Env) (ms : List Mat)
    (ls : List String) :
    env.hasUtils = true → env.hasSavgol = true → ls.length = ms.length →
      (distance_plot env ms (some ls)).2 = none
      ∧ savefigPaths (distance_plot env ms (some ls)).1
          = ls.map (fun l => [l, ".pdf3"])
      ∧ (savefigPaths (distance_plot env ms (some ls)).1).length = ms.length := by
  intro hu hs hlen
  obtain ⟨h1, h2⟩ := distanceLoop_injected env hu hs ms ls hlen
  refine ⟨h1, h2, ?_⟩
  show (savefigPaths (distanceLoop env (ms.zip ls)).1).length = ms.length
  rw [h2, List.length_map, hlen]

/-- Witness for the amended C6: with the names injected, two matrices
with labels "a" and "b" produce exactly the two savefig calls. -/
theorem C6_amended_one_save_per_matrix_witness :
    (distance_plot envInjected [[[1]], [[2]]] (some ["a", "b"])).2 = none
      ∧ savefigPaths (distance_plot envInjected [[[1]], [[2]]] (some ["a", "b"])).1
          = [["a", ".pdf3"], ["b", ".pdf3"]] := by
  have h := C6_amended_one_save_per_matrix envInjected [[[1]], [[2]]] ["a", "b"]
    rfl rfl (by decide)
  exact ⟨h.1, h.2.1⟩

theorem mem_borderMarkers (n : Int) (recs : List PRec) (x y : PField) :
    Effect.plotD x y ∈ borderMarkers n recs ↔
      ∃ r ∈ recs, r.frame = n ∧ r.pos1 ≠ PField.NA ∧ r.pos1 = x ∧ r.pos2 = y := by
  rw [borderMarkers, List.mem_filterMap]
  constructor
  · rintro ⟨b, hb, heq⟩
    split at heq
    · simp at heq
    · rename_i h1
      split at heq
      · rename_i h2
        simp only [Option.some.injEq, Effect.plotD.injEq] at heq
        exact ⟨b, hb, not_not.mp h1, h2, heq.1, heq.2⟩
      · simp at heq
  · rintro ⟨r, hr, h1, h2, hx, hy⟩
    refine ⟨r, hr, ?_⟩
    rw [if_neg (not_not.mpr h1), if_pos h2, hx, hy]

theorem mem_loopMarkers (n : Int) (recs : List PRec) (x y : PField) :
    Effect.scatterM x y ∈ loopMarkers n recs ↔
      ∃ r ∈ recs, r.frame = n ∧ r.pos1 ≠ PField.NA ∧ r.pos1 = x ∧ r.pos2 = y := by
  rw [loopMarkers, List.mem_filterMap]
  constructor
  · rintro ⟨b, hb, heq⟩
    split at heq
    · simp at heq
    · rename_i h1
      split at heq
      · rename_i h2
        simp only [Option.some.injEq, Effect.scatterM.injEq] at heq
        exact ⟨b, hb, not_not.mp h1, h2, heq.1, heq.2⟩
      · simp at heq
  · rintro ⟨r, hr, h1, h2, hx, hy⟩
    refine ⟨r, hr, ?_⟩
    rw [if_neg (not_not.mpr h1), if_pos h2, hx, hy]

theorem plotD_not_mem_loopMarkers (n : Int) (recs : List PRec) (x y : PField) :
    Effect.plotD x y ∉ loopMarkers n recs := by
  rw [loopMarkers, List.mem_filterMap]
  rintro ⟨b, hb, heq⟩
  split at heq
  · simp at heq
  · split at heq <;> simp at heq

theorem scatterM_not_mem_borderMarkers (n : Int) (recs : List PRec) (x y : PField) :
    Effect.scatterM x y ∉ borderMarkers n recs := by
  rw [borderMarkers, List.mem_filterMap]
  rintro ⟨b, hb, heq⟩
  split at heq
  · simp at heq
  · split at heq <;> simp at heq

theorem mem_patternMarkers_plotD (n : Int) (ps : List (String × List PRec))
    (x y : PField) :
    Effect.plotD x y ∈ patternMarkers n ps ↔
      ∃ recs, ("borders", recs) ∈ ps ∧ ∃ r ∈ recs,
        r.frame = n ∧ r.pos1 ≠ PField.NA ∧ r.pos1 = x ∧ r.pos2 = y := by
  induction ps with
  | nil => simp [patternMarkers]
  | cons kv rest ih =>
    obtain ⟨k, recs⟩ := kv
    rw [patternMarkers, List.mem_append, ih]
    by_cases hb : k = "borders"
    · subst hb
      rw [if_pos rfl, mem_borderMarkers]
      constructor
      · rintro (h | ⟨recs2, h2, hp⟩)
        · exact ⟨recs, List.mem_cons_self _ _, h⟩
        · exact ⟨recs2, List.mem_cons_of_mem _ h2, hp⟩
      · rintro ⟨recs2, hmem, hp⟩
        rcases List.mem_cons.mp hmem with heq | h2
        · injection heq with h1 h2
          subst h2
          exact Or.inl hp
        · exact Or.inr ⟨recs2, h2, hp⟩
    · rw [if_neg hb]
      by_cases hl : k = "loops"
      · subst hl
        rw [if_pos rfl]
        constructor
        · rintro (h | ⟨recs2, h2, hp⟩)
          · exact absurd h (plotD_not_mem_loopMarkers n recs x y)
          · exact ⟨recs2, List.mem_cons_of_mem _ h2, hp⟩
        · rintro ⟨recs2, hmem, hp⟩
          rcases List.mem_cons.mp hmem with heq | h2
          · injection heq with h1 h2
            exact absurd h1.symm hb
          · exact Or.inr ⟨recs2, h2, hp⟩
      · rw [if_neg hl]
        constructor
        · rintro (h | ⟨recs2, h2, hp⟩)
          · simp at h
          · exact ⟨recs2, List.mem_cons_of_mem _ h2, hp⟩
        · rintro ⟨recs2, hmem, hp⟩
          rcases List.mem_cons.mp hmem with heq | h2
          · injection heq with h1 h2
            exact absurd h1.symm hb
          · exact Or.inr ⟨recs2, h2, hp⟩

theorem mem_patternMarkers_scatterM (n : Int) (ps : List (String × List PRec))
    (x y : PField) :
    Effect.scatterM x y ∈ patternMarkers n ps ↔
      ∃ recs, ("loops", recs) ∈ ps ∧ ∃ r ∈ recs,
        r.frame = n ∧ r.pos1 ≠ PField.NA ∧ r.pos1 = x ∧ r.pos2 = y := by
  induction ps with
  | nil => simp [patternMarkers]
  | cons kv rest ih =>
    obtain ⟨k, recs⟩ := kv
    rw [patternMarkers, List.mem_append, ih]
    by_cases hl : k = "loops"
    · subst hl
      rw [if_neg (by decide), if_pos rfl, mem_loopMarkers]
      constructor
      · rintro (h | ⟨recs2, h2, hp⟩)
        · exact ⟨recs, List.mem_cons_self _ _, h⟩
        · exact ⟨recs2, List.mem_cons_of_mem _ h2, hp⟩
      · rintro ⟨recs2, hmem, hp⟩
        rcases List.mem_cons.mp hmem with heq | h2
        · injection heq with h1 h2
          subst h2
          exact Or.inl hp
        · exact Or.inr ⟨recs2, h2, hp⟩
    · by_cases hb : k = "borders"
      · subst hb
        rw [if_pos rfl]
        constructor
        · rintro (h | ⟨recs2, h2, hp⟩)
          · exact absurd h (scatterM_not_mem_borderMarkers n recs x y)
          · exact ⟨recs2, List.mem_cons_of_mem _ h2, hp⟩
        · rintro ⟨recs2, hmem, hp⟩
          rcases List.mem_cons.mp hmem with heq | h2
          · injection heq with h1 h2
            exact absurd h1.symm hl
          · exact Or.inr ⟨recs2, h2, hp⟩
      · rw [if_neg hb, if_neg hl]
        constructor
        · rintro (h | ⟨recs2, h2, hp⟩)
          · simp at h
          · exact ⟨recs2, List.mem_cons_of_mem _ h2, hp⟩
        · rintro ⟨recs2, hmem, hp⟩
          rcases List.mem_cons.mp hmem with heq | h2
          · injection heq with h1 h2
            exact absurd h1.symm hl
          · exact Or.inr ⟨recs2, h2, hp⟩

theorem patternMarkers_eq_nil_of_other_keys (n : Int)
    (ps : List (String × List PRec)) :
    (∀ kv ∈ ps, kv.1 ≠ "borders" ∧ kv.1 ≠ "loops") →
      patternMarkers n ps = [] := by
  induction ps with
  | nil => intro _; rfl
  | cons kv rest ih =>
    intro h
    obtain ⟨k, recs⟩ := kv
    obtain ⟨h1, h2⟩ := h (k, recs) (List.mem_cons_self _ _)
    rw [patternMarkers, if_neg h1, if_neg h2, List.nil_append]
    exact ih fun kv2 hk => h kv2 (List.mem_cons_of_mem _ hk)

/-- C2 counterexample: a borders record of the selected frame whose
second position field carries the sentinel "NA" is not skipped:
`pattern_plot` draws a marker for it (at an "NA" coordinate), refuting
that a marker is plotted only for records whose position fields are not
the sentinel. -/
theorem C2_counterexample :
    PRec.pos2 ⟨0, PField.val 5, PField.NA, PField.val 1⟩ = PField.NA
      ∧ Effect.plotD (PField.val 5) PField.NA
          ∈ (pattern_plot [[1]]
              [("borders", [⟨0, PField.val 5, PField.NA, PField.val 1⟩])]
              none none).effects := by
  exact ⟨rfl, by decide⟩

/-- C2 amended: `pattern_plot` skips a borders or loops record of the
selected frame iff its FIRST position field (element 1 of the record)
is the sentinel "NA"; the second position field is never examined, so a
record whose first position is a value is plotted even when its second
position carries the sentinel. -/
theorem C2_sentinel_skip_checks_first_position_only (name : Int)
    (recs : List PRec) (x y : PField) (f : Int) (p1 p2 s : PField) :
    (Effect.plotD x y ∈ borderMarkers name recs ↔
        ∃ r ∈ recs, r.frame = name ∧ r.pos1 ≠ PField.NA ∧ r.pos1 = x ∧ r.pos2 = y)
  ∧ (Effect.scatterM x y ∈ loopMarkers name recs ↔
        ∃ r ∈ recs, r.frame = name ∧ r.pos1 ≠ PField.NA ∧ r.pos1 = x ∧ r.pos2 = y)
  ∧ (borderMarkers f [⟨f, PField.NA, p2, s⟩] = []
        ∧ loopMarkers f [⟨f, PField.NA, p2, s⟩] = [])
  ∧ (p1 ≠ PField.NA →
        borderMarkers f [⟨f, p1, p2, s⟩] = [Effect.plotD p1 p2]
        ∧ loopMarkers f [⟨f, p1, p2, s⟩] = [Effect.scatterM p1 p2]) := by
  refine ⟨mem_borderMarkers name recs x y, mem_loopMarkers name recs x y,
    ⟨?_, ?_⟩, ?_⟩
  · simp [borderMarkers]
  · simp [loopMarkers]
  · intro hp
    constructor <;> simp [borderMarkers, loopMarkers, hp]

/-- Witness for the amended C2: a record with first position "NA" is
skipped, while a record with first position 6 and second position "NA"
is still plotted. -/
theorem C2_sentinel_skip_checks_first_position_only_witness :
    borderMarkers 0 [⟨0, PField.NA, PField.val 7, PField.val 1⟩] = []
      ∧ borderMarkers 0 [⟨0, PField.val 6, PField.NA, PField.val 1⟩]
          = [Effect.plotD (PField.val 6) PField.NA] := by
  have h1 := C2_sentinel_skip_checks_first_position_only 0 [] PField.NA PField.NA
    0 (PField.val 6) (PField.val 7) (PField.val 1)
  have h2 := C2_sentinel_skip_checks_first_position_only 0 [] PField.NA PField.NA
    0 (PField.val 6) PField.NA (PField.val 1)
  exact ⟨h1.2.2.1.1, (h2.2.2.2 (by decide)).1⟩

/-- C9: a border marker appears in the `pattern_plot` trace iff some
record under a "borders" entry has first field equal to `name` (and a
non-sentinel first position), and dually for loop markers under "loops";
patterns stored under any other key never produce a marker; and a call
with `name` omitted behaves exactly as `name = 0`. -/
theorem C9_markers_only_for_selected_frame (name : Int)
    (ps : List (String × List PRec)) (x y : PField) (contact : Mat)
    (output : Option (List String)) :
    (Effect.plotD x y ∈ patternMarkers name ps ↔
        ∃ recs, ("borders", recs) ∈ ps ∧ ∃ r ∈ recs,
          r.frame = name ∧ r.pos1 ≠ PField.NA ∧ r.pos1 = x ∧ r.pos2 = y)
  ∧ (Effect.scatterM x y ∈ patternMarkers name ps ↔
        ∃ recs, ("loops", recs) ∈ ps ∧ ∃ r ∈ recs,
          r.frame = name ∧ r.pos1 ≠ PField.NA ∧ r.pos1 = x ∧ r.pos2 = y)
  ∧ ((∀ kv ∈ ps, kv.1 ≠ "borders" ∧ kv.1 ≠ "loops") →
        patternMarkers name ps = [])
  ∧ (pattern_plot contact ps output none).effects
      = (pattern_plot contact ps output (some 0)).effects := by
  exact ⟨mem_patternMarkers_plotD name ps x y,
    mem_patternMarkers_scatterM name ps x y,
    patternMarkers_eq_nil_of_other_keys name ps, rfl⟩

/-- Witness for C9: a record of frame 0 under "borders" yields its
marker, and the same record under an unrelated key yields none. -/
theorem C9_markers_only_for_selected_frame_witness :
    Effect.plotD (PField.val 2) (PField.val 3)
        ∈ patternMarkers 0
            [("borders", [⟨0, PField.val 2, PField.val 3, PField.val 1⟩])]
      ∧ patternMarkers 0
            [("scores", [⟨0, PField.val 2, PField.val 3, PField.val 1⟩])] = [] := by
  have h1 := C9_markers_only_for_selected_frame 0
    [("borders", [⟨0, PField.val 2, PField.val 3, PField.val 1⟩])]
    (PField.val 2) (PField.val 3) [[1]] none
  have h2 := C9_markers_only_for_selected_frame 0
    [("scores", [⟨0, PField.val 2, PField.val 3, PField.val 1⟩])]
    (PField.val 2) (PField.val 3) [[1]] none
  refine ⟨h1.1.mpr ⟨[⟨0, PField.val 2, PField.val 3, PField.val 1⟩],
    List.mem_cons_self _ _,
    ⟨0, PField.val 2, PField.val 3, PField.val 1⟩,
    List.mem_cons_self _ _, rfl, by decide, rfl, rfl⟩, h2.2.2.1 ?_⟩
  intro kv hkv
  rcases List.mem_cons.mp hkv with rfl | h
  · exact ⟨by decide, by decide⟩
  · simp at h

/-- C10: the pattern filter of `plot_whole_matrix` uses strict
inequalities on all four bounds, so a pattern row is kept iff
s1 < bin1 < e1 and s2 < bin2 < e2; a pattern sitting exactly on a bound
is excluded, although the matrix slice does include row s1 (its first
row is row s1 of the matrix) and column s2 (the first entry of every
sliced row is the source row entry at index s2). -/
theorem C10_pattern_filter_is_strict (mat : Mat) (pats : List PRow)
    (out : Option (List String)) (s1 e1 s2 e2 : Nat) (r : PRow) :
    (r ∈ (plot_whole_matrix_body mat pats out (some (s1, e1)) (some (s2, e2))).kept
        ↔ r ∈ pats ∧ s1 < r.bin1 ∧ r.bin1 < e1 ∧ s2 < r.bin2 ∧ r.bin2 < e2)
  ∧ (r.bin1 = s1 ∨ r.bin1 = e1 ∨ r.bin2 = s2 ∨ r.bin2 = e2 →
        r ∉ (plot_whole_matrix_body mat pats out (some (s1, e1)) (some (s2, e2))).kept)
  ∧ (s1 < e1 →
        (plot_whole_matrix_body mat pats out (some (s1, e1)) (some (s2, e2))).subMat.head?
          = (List.get? mat s1).map fun row => (row.drop s2).take (e2 - s2))
  ∧ (s2 < e2 →
        (subMatrix mat s1 e1 s2 e2).map List.head?
          = ((mat.drop s1).take (e1 - s1)).map fun row => row[s2]?) := by
  have hkept :
      (plot_whole_matrix_body mat pats out (some (s1, e1)) (some (s2, e2))).kept
        = pats.filter (keepRow s1 e1 s2 e2) := by
    simp [plot_whole_matrix_body, resolveRegions, List.map_id]
  have hmem :
      r ∈ (plot_whole_matrix_body mat pats out (some (s1, e1)) (some (s2, e2))).kept
        ↔ r ∈ pats ∧ s1 < r.bin1 ∧ r.bin1 < e1 ∧ s2 < r.bin2 ∧ r.bin2 < e2 := by
    rw [hkept, List.mem_filter, keepRow]
    simp [and_assoc]
  refine ⟨hmem, ?_, ?_, ?_⟩
  · intro hbound hm
    obtain ⟨-, h1, h2, h3, h4⟩ := hmem.mp hm
    rcases hbound with h | h | h | h
    · exact absurd h (by omega)
    · exact absurd h (by omega)
    · exact absurd h (by omega)
    · exact absurd h (by omega)
  · intro hlt
    show (subMatrix mat s1 e1 s2 e2).head? = _
    rw [subMatrix, List.head?_map, List.head?_take,
      if_neg (Nat.sub_ne_zero_of_lt hlt), List.head?_drop, List.get?_eq_getElem?]
  · intro hlt
    rw [subMatrix, List.map_map]
    refine List.map_congr_left fun row _ => ?_
    show ((row.drop s2).take (e2 - s2)).head? = row[s2]?
    rw [List.head?_take, if_neg (Nat.sub_ne_zero_of_lt hlt), List.head?_drop]

/-- Witness for C10 on a 3-by-3 matrix with region (1, 3) on both axes:
the pattern at (1, 2) sits on the lower row bound and is excluded, the
pattern at (2, 2) is kept, and the slice still starts at row 1 and
column 1. -/
theorem C10_pattern_filter_is_strict_witness :
    (⟨2, 2, 9⟩ : PRow)
        ∈ (plot_whole_matrix_body [[1, 2, 3], [4, 5, 6], [7, 8, 9]]
            [⟨1, 2, 9⟩, ⟨2, 2, 9⟩] none (some (1, 3)) (some (1, 3))).kept
      ∧ (⟨1, 2, 9⟩ : PRow)
          ∉ (plot_whole_matrix_body [[1, 2, 3], [4, 5, 6], [7, 8, 9]]
              [⟨1, 2, 9⟩, ⟨2, 2, 9⟩] none (some (1, 3)) (some (1, 3))).kept
      ∧ (plot_whole_matrix_body [[1, 2, 3], [4, 5, 6], [7, 8, 9]]
            [⟨1, 2, 9⟩, ⟨2, 2, 9⟩] none (some (1, 3)) (some (1, 3))).subMat.head?
          = some [5, 6] := by
  have hk := C10_pattern_filter_is_strict [[1, 2, 3], [4, 5, 6], [7, 8, 9]]
    [⟨1, 2, 9⟩, ⟨2, 2, 9⟩] none 1 3 1 3 ⟨2, 2, 9⟩
  have hx := C10_pattern_filter_is_strict [[1, 2, 3], [4, 5, 6], [7, 8, 9]]
    [⟨1, 2, 9⟩, ⟨2, 2, 9⟩] none 1 3 1 3 ⟨1, 2, 9⟩
  refine ⟨hk.1.mpr ⟨by decide, by decide, by decide, by decide, by decide⟩,
    hx.2.1 (Or.inl rfl), ?_⟩
  have h3 := hk.2.2.1 (by decide)
  rw [h3]
  rfl
